import Mathlib

/-!
Shallow embedding of the `uefi-exfat` driver (src/exfat.rs, src/protocol.rs)
and proofs about it.

Machine integers are modelled as `Nat` with explicit wrapping where the Rust
arithmetic can wrap on well-typed inputs:
* `u32` values wrap modulo `U32LIM = 2^32`;
* Rust's `1u32 << shift` masks the shift amount modulo 32 when overflow
  checks are off, so it is modelled as `2 ^ (shift % 32)`;
* arithmetic whose result provably fits its Rust type on all well-typed
  inputs is left as plain `Nat` arithmetic.
Fallible operations return `Except Status`, mirroring `uefi::Result`.
-/

namespace UefiExfat

def U32LIM : Nat := 4294967296

def U64LIM : Nat := 18446744073709551616

/-- UEFI status codes used by this driver (`uefi::Status`). -/
inductive Status where
  | VOLUME_CORRUPTED
  | BUFFER_TOO_SMALL
  | INVALID_PARAMETER
  deriving DecidableEq

/-- `FatEntry` from src/exfat.rs: semantic view of a raw 32-bit FAT slot. -/
inductive FatEntry where
  | Free
  | Next (cluster : Nat)
  | Bad
  | EndOfChain
  deriving DecidableEq

/-- `FatEntry::from_u32` from src/exfat.rs.  The Rust `match` arms are
disjoint, so the ordered if-chain is an exact translation. -/
def FatEntry.from_u32 (value : Nat) : FatEntry :=
  if value = 0x00000000 then .Free
  else if value = 0xFFFFFFF7 then .Bad
  else if 0xFFFFFFF8 ≤ value ∧ value ≤ 0xFFFFFFFF then .EndOfChain
  else .Next value

/-- `FatEntry::to_u32` from src/exfat.rs. -/
def FatEntry.to_u32 : FatEntry → Nat
  | .Free => 0x00000000
  | .Next cluster => cluster
  | .Bad => 0xFFFFFFF7
  | .EndOfChain => 0xFFFFFFFF

/-- C1: `FatEntry::from_u32` maps 0 to Free, 0xFFFFFFF7 to Bad, any value in
0xFFFFFFF8..=0xFFFFFFFF to EndOfChain, and every other 32-bit value v to
Next(v). -/
theorem fatEntry_from_u32_spec (v : Nat) (hv : v < U32LIM) :
    (v = 0x00000000 → FatEntry.from_u32 v = .Free) ∧
    (v = 0xFFFFFFF7 → FatEntry.from_u32 v = .Bad) ∧
    (0xFFFFFFF8 ≤ v → FatEntry.from_u32 v = .EndOfChain) ∧
    (v ≠ 0x00000000 → v ≠ 0xFFFFFFF7 → v < 0xFFFFFFF8 →
      FatEntry.from_u32 v = .Next v) := by
  unfold FatEntry.from_u32
  unfold U32LIM at hv
  refine ⟨?_, ?_, ?_, ?_⟩
  · intro h; simp [h]
  · intro h; simp [h]
  · intro h
    have h1 : v ≠ 0x00000000 := by omega
    have h2 : v ≠ 0xFFFFFFF7 := by omega
    have h3 : 0xFFFFFFF8 ≤ v ∧ v ≤ 0xFFFFFFFF := by omega
    simp [h1, h2, h3]
  · intro h1 h2 h3
    have h4 : ¬ (0xFFFFFFF8 ≤ v ∧ v ≤ 0xFFFFFFFF) := by omega
    simp [h1, h2, h4]

/-- C1 witness: the theorem instantiated at the concrete raw value 0x12345. -/
theorem fatEntry_from_u32_spec_witness :
    (0x12345 : Nat) < U32LIM ∧
    ((0x12345 = 0x00000000 → FatEntry.from_u32 0x12345 = .Free) ∧
     (0x12345 = 0xFFFFFFF7 → FatEntry.from_u32 0x12345 = .Bad) ∧
     ((0xFFFFFFF8 : Nat) ≤ 0x12345 → FatEntry.from_u32 0x12345 = .EndOfChain) ∧
     ((0x12345 : Nat) ≠ 0x00000000 → (0x12345 : Nat) ≠ 0xFFFFFFF7 →
       (0x12345 : Nat) < 0xFFFFFFF8 →
       FatEntry.from_u32 0x12345 = .Next 0x12345)) :=
  ⟨by decide, fatEntry_from_u32_spec 0x12345 (by decide)⟩

/-- C2 counterexample: the round-trip law fails on the variant `Next 0`,
whose encoding 0 decodes back to `Free`. -/
theorem fatEntry_roundtrip_counterexample :
    FatEntry.from_u32 (FatEntry.Next 0).to_u32 ≠ FatEntry.Next 0 := by
  decide

/-- C2 (amended): decode ∘ encode is the identity on Free, Bad, EndOfChain,
and on Next c whenever c is none of 0, 0xFFFFFFF7, 0xFFFFFFF8..=0xFFFFFFFF
(those encodings decode to the variant owning the value instead). -/
theorem fatEntry_roundtrip_amended (e : FatEntry)
    (h : ∀ c, e = .Next c →
      c ≠ 0x00000000 ∧ c ≠ 0xFFFFFFF7 ∧ ¬ (0xFFFFFFF8 ≤ c ∧ c ≤ 0xFFFFFFFF)) :
    FatEntry.from_u32 e.to_u32 = e := by
  cases e with
  | Free => decide
  | Bad => decide
  | EndOfChain => decide
  | Next c =>
    obtain ⟨h1, h2, h3⟩ := h c rfl
    simp [FatEntry.to_u32, FatEntry.from_u32, h1, h2, h3]

/-- C2 witness: the amended round-trip law at the concrete entry `Next 5`. -/
theorem fatEntry_roundtrip_amended_witness :
    FatEntry.from_u32 (FatEntry.Next 5).to_u32 = FatEntry.Next 5 :=
  fatEntry_roundtrip_amended (.Next 5)
    (by intro c hc; injection hc with h; subst h; exact ⟨by decide, by decide, by decide⟩)

/-- C10: encode after decode collapses 0xFFFFFFF8..=0xFFFFFFFE to 0xFFFFFFFF
and is the identity on every other 32-bit raw value. -/
theorem fatEntry_encode_decode_spec (v : Nat) (hv : v < U32LIM) :
    (0xFFFFFFF8 ≤ v ∧ v ≤ 0xFFFFFFFE →
      (FatEntry.from_u32 v).to_u32 = 0xFFFFFFFF ∧ (FatEntry.from_u32 v).to_u32 ≠ v) ∧
    (¬ (0xFFFFFFF8 ≤ v ∧ v ≤ 0xFFFFFFFE) → (FatEntry.from_u32 v).to_u32 = v) := by
  unfold FatEntry.from_u32
  unfold U32LIM at hv
  constructor
  · rintro ⟨h1, h2⟩
    have e1 : v ≠ 0x00000000 := by omega
    have e2 : v ≠ 0xFFFFFFF7 := by omega
    have e3 : 0xFFFFFFF8 ≤ v ∧ v ≤ 0xFFFFFFFF := by omega
    simp [e1, e2, e3, FatEntry.to_u32]
    omega
  · intro h
    by_cases e1 : v = 0x00000000
    · simp [e1, FatEntry.to_u32]
    by_cases e2 : v = 0xFFFFFFF7
    · simp [e1, e2, FatEntry.to_u32]
    by_cases e3 : v = 0xFFFFFFFF
    · have : 0xFFFFFFF8 ≤ v ∧ v ≤ 0xFFFFFFFF := by omega
      simp [e1, e2, this, FatEntry.to_u32, e3]
    · have e4 : ¬ (0xFFFFFFF8 ≤ v ∧ v ≤ 0xFFFFFFFF) := by omega
      simp [e1, e2, e4, FatEntry.to_u32]

/-- C10 witness: the theorem instantiated at the raw value 0xFFFFFFF9, where
decode-then-encode yields 0xFFFFFFFF. -/
theorem fatEntry_encode_decode_spec_witness :
    (0xFFFFFFF9 : Nat) < U32LIM ∧
    (((0xFFFFFFF8 : Nat) ≤ 0xFFFFFFF9 ∧ (0xFFFFFFF9 : Nat) ≤ 0xFFFFFFFE →
      (FatEntry.from_u32 0xFFFFFFF9).to_u32 = 0xFFFFFFFF ∧
      (FatEntry.from_u32 0xFFFFFFF9).to_u32 ≠ 0xFFFFFFF9) ∧
     (¬ ((0xFFFFFFF8 : Nat) ≤ 0xFFFFFFF9 ∧ (0xFFFFFFF9 : Nat) ≤ 0xFFFFFFFE) →
      (FatEntry.from_u32 0xFFFFFFF9).to_u32 = 0xFFFFFFF9)) :=
  ⟨by decide, fatEntry_encode_decode_spec 0xFFFFFFF9 (by decide)⟩

/-- `BootSector` from src/exfat.rs.  Byte arrays become `List Nat`; numeric
fields become `Nat` (u8/u16/u32/u64 fields of the Rust struct). -/
structure BootSector where
  jump_boot : List Nat
  fs_name : List Nat
  must_be_zero : List Nat
  partition_offset : Nat
  volume_length : Nat
  fat_offset : Nat
  fat_length : Nat
  cluster_heap_offset : Nat
  cluster_count : Nat
  root_dir_cluster : Nat
  volume_serial : Nat
  fs_revision : Nat
  volume_flags : Nat
  bytes_per_sector_shift : Nat
  sectors_per_cluster_shift : Nat
  num_fats : Nat
  drive_select : Nat
  percent_in_use : Nat
  reserved : List Nat
  boot_code : List Nat
  boot_signature : Nat
  deriving DecidableEq

/-- The byte string `b"EXFAT   "` compared against `fs_name`. -/
def EXFAT_NAME : List Nat := [0x45, 0x58, 0x46, 0x41, 0x54, 0x20, 0x20, 0x20]

/-- `BootSector::is_valid` from src/exfat.rs. -/
def BootSector.is_valid (b : BootSector) : Bool :=
  b.boot_signature == 0xAA55 && b.fs_name == EXFAT_NAME

/-- `BootSector::bytes_per_sector` from src/exfat.rs: `1u32 << shift`, whose
shift amount Rust masks modulo the 32-bit width. -/
def BootSector.bytes_per_sector (b : BootSector) : Nat :=
  2 ^ (b.bytes_per_sector_shift % 32)

/-- `BootSector::sectors_per_cluster` from src/exfat.rs. -/
def BootSector.sectors_per_cluster (b : BootSector) : Nat :=
  2 ^ (b.sectors_per_cluster_shift % 32)

/-- `BootSector::bytes_per_cluster` from src/exfat.rs: a u32 product, which
wraps modulo 2^32. -/
def BootSector.bytes_per_cluster (b : BootSector) : Nat :=
  (b.bytes_per_sector * b.sectors_per_cluster) % U32LIM

/-- `ExFatVolume` from src/protocol.rs. -/
structure ExFatVolume where
  boot_sector : BootSector
  block_device : Nat
  deriving DecidableEq

/-- `ExFatVolume::new` from src/protocol.rs. -/
def ExFatVolume.new (boot_sector : BootSector) (block_device : Nat) :
    Except Status ExFatVolume :=
  if !boot_sector.is_valid then .error .VOLUME_CORRUPTED
  else .ok { boot_sector, block_device }

/-- `ExFatVolume::bytes_per_sector` from src/protocol.rs. -/
def ExFatVolume.bytes_per_sector (v : ExFatVolume) : Nat :=
  v.boot_sector.bytes_per_sector

/-- `ExFatVolume::bytes_per_cluster` from src/protocol.rs. -/
def ExFatVolume.bytes_per_cluster (v : ExFatVolume) : Nat :=
  v.boot_sector.bytes_per_cluster

/-- `ExFatVolume::cluster_to_lba` from src/protocol.rs.  `cluster - 2` is a
u32 subtraction, modelled with its wrap-around; on well-typed inputs the
surrounding u64 arithmetic cannot overflow, so no outer reduction is taken. -/
def ExFatVolume.cluster_to_lba (v : ExFatVolume) (cluster : Nat) : Nat :=
  let cluster_heap_offset := v.boot_sector.cluster_heap_offset
  let sectors_per_cluster := v.boot_sector.sectors_per_cluster
  cluster_heap_offset + ((cluster + U32LIM - 2) % U32LIM) * sectors_per_cluster

/-- `ExFatVolume::read_cluster` from src/protocol.rs: the block-device read
is a placeholder, only the buffer-size check is performed. -/
def ExFatVolume.read_cluster (v : ExFatVolume) (_cluster : Nat)
    (buffer : List Nat) : Except Status Unit :=
  let bytes_per_cluster := v.bytes_per_cluster
  if buffer.length < bytes_per_cluster then .error .BUFFER_TOO_SMALL
  else .ok ()

/-- `ExFatVolume::root_dir_cluster` from src/protocol.rs. -/
def ExFatVolume.root_dir_cluster (v : ExFatVolume) : Nat :=
  v.boot_sector.root_dir_cluster

/-- `ExFatFile` from src/protocol.rs. -/
structure ExFatFile where
  name : String
  attributes : Nat
  first_cluster : Nat
  size : Nat
  position : Nat
  volume : Nat
  deriving DecidableEq

/-- `ExFatFile::new` from src/protocol.rs. -/
def ExFatFile.new (name : String) (attributes : Nat) (first_cluster : Nat)
    (size : Nat) (volume : Nat) : ExFatFile :=
  { name, attributes, first_cluster, size, position := 0, volume }

/-- `ExFatFile::read` from src/protocol.rs; the state change is made explicit
by returning the updated handle.  Only `buffer.len()` is consulted: the
cluster copy itself is a placeholder in the source.  On well-typed inputs
`position + to_read ≤ size` fits u64, so the addition is exact. -/
def ExFatFile.read (f : ExFatFile) (buffer : List Nat) :
    ExFatFile × Except Status Nat :=
  if f.size ≤ f.position then (f, .ok 0)
  else
    let remaining := f.size - f.position
    let to_read := min buffer.length remaining
    ({ f with position := f.position + to_read }, .ok to_read)

/-- `ExFatFile::seek` from src/protocol.rs, with the state change explicit. -/
def ExFatFile.seek (f : ExFatFile) (position : Nat) :
    ExFatFile × Except Status Unit :=
  if f.size < position then (f, .error .INVALID_PARAMETER)
  else ({ f with position }, .ok ())

/-- Concrete boot sector mirroring the repository's own unit test
(`cluster_heap_offset = 1024`, `sectors_per_cluster_shift = 3`), used to
instantiate theorems with hypotheses. -/
def bs0 : BootSector :=
  { jump_boot := [0xEB, 0x76, 0x90]
    fs_name := EXFAT_NAME
    must_be_zero := List.replicate 53 0
    partition_offset := 0
    volume_length := 1048576
    fat_offset := 128
    fat_length := 512
    cluster_heap_offset := 1024
    cluster_count := 65536
    root_dir_cluster := 4
    volume_serial := 0
    fs_revision := 0x0100
    volume_flags := 0
    bytes_per_sector_shift := 9
    sectors_per_cluster_shift := 3
    num_fats := 1
    drive_select := 0x80
    percent_in_use := 0
    reserved := List.replicate 7 0
    boot_code := List.replicate 390 0
    boot_signature := 0xAA55 }

/-- A boot sector identical to `bs0` except for a wrong boot signature. -/
def bsBad : BootSector := { bs0 with boot_signature := 0x1234 }

/-- A valid boot sector whose shifts make the u32 cluster-size product wrap. -/
def bsOverflow : BootSector :=
  { bs0 with bytes_per_sector_shift := 16, sectors_per_cluster_shift := 16 }

/-- Concrete volume built over `bs0`. -/
def vol0 : ExFatVolume := { boot_sector := bs0, block_device := 0 }

/-- Concrete file handle of size 10 used to instantiate theorems. -/
def file0 : ExFatFile := ExFatFile.new "A" 0 5 10 0

/-- C3: `cluster_to_lba 2` is the cluster-heap offset, consecutive clusters
are `sectors_per_cluster` apart, and in general
`cluster_to_lba c = cluster_heap_offset + (c - 2) * sectors_per_cluster` for
every 32-bit cluster number c ≥ 2. -/
theorem cluster_to_lba_spec (v : ExFatVolume) :
    v.cluster_to_lba 2 = v.boot_sector.cluster_heap_offset ∧
    (∀ n, 2 ≤ n → n + 1 < U32LIM →
      v.cluster_to_lba (n + 1) - v.cluster_to_lba n =
        v.boot_sector.sectors_per_cluster) ∧
    (∀ c, 2 ≤ c → c < U32LIM →
      v.cluster_to_lba c =
        v.boot_sector.cluster_heap_offset +
          (c - 2) * v.boot_sector.sectors_per_cluster) := by
  have key : ∀ c, 2 ≤ c → c < U32LIM →
      v.cluster_to_lba c =
        v.boot_sector.cluster_heap_offset +
          (c - 2) * v.boot_sector.sectors_per_cluster := by
    intro c h1 h2
    have hm : (c + U32LIM - 2) % U32LIM = c - 2 := by
      unfold U32LIM at h2 ⊢; omega
    simp only [ExFatVolume.cluster_to_lba, hm]
  refine ⟨?_, ?_, key⟩
  · have h := key 2 (le_refl 2) (by unfold U32LIM; omega)
    simpa using h
  · intro n h1 h2
    rw [key (n + 1) (by omega) h2, key n (by omega) (by omega)]
    have hstep : n + 1 - 2 = (n - 2) + 1 := by omega
    rw [hstep, Nat.succ_mul]
    generalize (n - 2) * v.boot_sector.sectors_per_cluster = t
    omega

/-- C3 witness: the theorem instantiated on the concrete volume `vol0` at
clusters 2 and 3. -/
theorem cluster_to_lba_spec_witness :
    vol0.cluster_to_lba 2 = vol0.boot_sector.cluster_heap_offset ∧
    vol0.cluster_to_lba 3 - vol0.cluster_to_lba 2 =
      vol0.boot_sector.sectors_per_cluster ∧
    vol0.cluster_to_lba 3 =
      vol0.boot_sector.cluster_heap_offset +
        (3 - 2) * vol0.boot_sector.sectors_per_cluster :=
  ⟨(cluster_to_lba_spec vol0).1,
   (cluster_to_lba_spec vol0).2.1 2 (by decide) (by decide),
   (cluster_to_lba_spec vol0).2.2 3 (by decide) (by decide)⟩

/-- C4: `ExFatVolume::new` fails with VOLUME_CORRUPTED exactly when the boot
signature is not 0xAA55 or the filesystem name is not "EXFAT   ", and
succeeds storing the boot sector unchanged exactly when both checks pass. -/
theorem exFatVolume_new_spec (b : BootSector) (d : Nat) :
    (ExFatVolume.new b d = .error .VOLUME_CORRUPTED ↔
      ¬ (b.boot_signature = 0xAA55 ∧ b.fs_name = EXFAT_NAME)) ∧
    (ExFatVolume.new b d = .ok { boot_sector := b, block_device := d } ↔
      b.boot_signature = 0xAA55 ∧ b.fs_name = EXFAT_NAME) := by
  unfold ExFatVolume.new BootSector.is_valid
  by_cases h1 : b.boot_signature = 0xAA55 <;>
    by_cases h2 : b.fs_name = EXFAT_NAME <;>
      simp [h1, h2]

/-- C4 witness: `vol0`'s boot sector is accepted unchanged, and the same
sector with a wrong signature is rejected as corrupted. -/
theorem exFatVolume_new_spec_witness :
    ExFatVolume.new bs0 0 = .ok { boot_sector := bs0, block_device := 0 } ∧
    ExFatVolume.new bsBad 0 = .error .VOLUME_CORRUPTED :=
  ⟨(exFatVolume_new_spec bs0 0).2.mpr ⟨by decide, by decide⟩,
   (exFatVolume_new_spec bsBad 0).1.mpr (by decide)⟩

/-- C5 counterexample: the valid boot sector `bsOverflow` (shifts 16 and 16)
has `bytes_per_cluster = 0`, which differs from
`bytes_per_sector * sectors_per_cluster = 2^32` and is not a power of two:
the u32 product wraps. -/
theorem bytes_per_cluster_counterexample :
    bsOverflow.is_valid = true ∧
    bsOverflow.bytes_per_cluster ≠
      bsOverflow.bytes_per_sector * bsOverflow.sectors_per_cluster ∧
    bsOverflow.bytes_per_cluster = 0 :=
  ⟨by decide, by decide, by decide⟩

/-- C5 (amended): for every valid boot sector whose two shifts sum below 32
(so the u32 product cannot wrap), `bytes_per_cluster` equals
`bytes_per_sector * sectors_per_cluster` and both are powers of two. -/
theorem bytes_per_cluster_amended (b : BootSector) (_hv : b.is_valid = true)
    (h : b.bytes_per_sector_shift + b.sectors_per_cluster_shift < 32) :
    b.bytes_per_cluster = b.bytes_per_sector * b.sectors_per_cluster ∧
    (∃ k, b.bytes_per_sector = 2 ^ k) ∧
    (∃ k, b.bytes_per_cluster = 2 ^ k) := by
  have h1 : b.bytes_per_sector_shift % 32 = b.bytes_per_sector_shift :=
    Nat.mod_eq_of_lt (by omega)
  have h2 : b.sectors_per_cluster_shift % 32 = b.sectors_per_cluster_shift :=
    Nat.mod_eq_of_lt (by omega)
  have hlt : 2 ^ b.bytes_per_sector_shift * 2 ^ b.sectors_per_cluster_shift
      < U32LIM := by
    rw [← pow_add]
    have hp : 2 ^ (b.bytes_per_sector_shift + b.sectors_per_cluster_shift)
        < 2 ^ 32 := Nat.pow_lt_pow_right (by omega) h
    have h32 : (2 : Nat) ^ 32 = U32LIM := by unfold U32LIM; norm_num
    omega
  unfold BootSector.bytes_per_cluster BootSector.bytes_per_sector
    BootSector.sectors_per_cluster
  rw [h1, h2, Nat.mod_eq_of_lt hlt]
  exact ⟨rfl, ⟨_, rfl⟩, ⟨_, (pow_add 2 _ _).symm⟩⟩

/-- C5 witness: the amended claim at the concrete valid boot sector `bs0`
(shifts 9 and 3). -/
theorem bytes_per_cluster_amended_witness :
    bs0.bytes_per_cluster = bs0.bytes_per_sector * bs0.sectors_per_cluster ∧
    (∃ k, bs0.bytes_per_sector = 2 ^ k) ∧
    (∃ k, bs0.bytes_per_cluster = 2 ^ k) :=
  bytes_per_cluster_amended bs0 (by decide) (by decide)

/-- C6: `seek p` fails with INVALID_PARAMETER and leaves the handle (hence
its position) unchanged when p exceeds the size, and succeeds setting the
position to exactly p when p ≤ size (p = size included). -/
theorem exFatFile_seek_spec (f : ExFatFile) (p : Nat) :
    (f.size < p → f.seek p = (f, .error .INVALID_PARAMETER)) ∧
    (p ≤ f.size → f.seek p = ({ f with position := p }, .ok ())) := by
  unfold ExFatFile.seek
  constructor
  · intro h; simp [h]
  · intro h; simp [Nat.not_lt.mpr h]

/-- C6 witness: on the size-10 handle `file0`, seeking to 11 fails leaving
the handle unchanged and seeking to 10 (= size) succeeds. -/
theorem exFatFile_seek_spec_witness :
    file0.seek 11 = (file0, .error .INVALID_PARAMETER) ∧
    file0.seek 10 = ({ file0 with position := 10 }, .ok ()) :=
  ⟨(exFatFile_seek_spec file0 11).1 (by decide),
   (exFatFile_seek_spec file0 10).2 (by decide)⟩

/-- C7: with position ≤ size, `read` always succeeds, returning
`min buffer.len (size - position)` and advancing the position by exactly
that count; at position = size it returns 0 and leaves the handle
unchanged. -/
theorem exFatFile_read_spec (f : ExFatFile) (buffer : List Nat)
    (h : f.position ≤ f.size) :
    f.read buffer =
      ({ f with position :=
          f.position + min buffer.length (f.size - f.position) },
       .ok (min buffer.length (f.size - f.position))) ∧
    (f.position = f.size → f.read buffer = (f, .ok 0)) := by
  unfold ExFatFile.read
  by_cases he : f.size ≤ f.position
  · have hpos : f.position = f.size := le_antisymm h he
    have hz : f.size - f.position = 0 := by omega
    constructor
    · simp [he, hz]
    · intro _; simp [he]
  · constructor
    · simp [he]
    · intro hc; omega

/-- C7 witness: reading 4 bytes of a size-10 handle at position 0 returns 4
and moves the position to 4. -/
theorem exFatFile_read_spec_witness :
    file0.position ≤ file0.size ∧
    (file0.read (List.replicate 4 0) =
      ({ file0 with position :=
          (file0.position +
            min (List.replicate 4 (0 : Nat)).length
              (file0.size - file0.position)) },
       .ok (min (List.replicate 4 (0 : Nat)).length
              (file0.size - file0.position))) ∧
     (file0.position = file0.size →
       file0.read (List.replicate 4 0) = (file0, .ok 0))) :=
  ⟨by decide, exFatFile_read_spec file0 (List.replicate 4 0) (by decide)⟩

/-- C8: the invariant position ≤ size holds after `new` (position 0) and is
preserved by `read` and by `seek`, whether they succeed or fail. -/
theorem exFatFile_position_le_size (nm : String) (attrs fc sz volume : Nat)
    (f : ExFatFile) (buffer : List Nat) (p : Nat)
    (hf : f.position ≤ f.size) :
    (ExFatFile.new nm attrs fc sz volume).position ≤
      (ExFatFile.new nm attrs fc sz volume).size ∧
    (f.read buffer).1.position ≤ (f.read buffer).1.size ∧
    (f.seek p).1.position ≤ (f.seek p).1.size := by
  refine ⟨Nat.zero_le _, ?_, ?_⟩
  · unfold ExFatFile.read
    by_cases he : f.size ≤ f.position
    · simpa [he] using hf
    · simp [he]
      omega
  · unfold ExFatFile.seek
    by_cases he : f.size < p
    · simpa [he] using hf
    · simp [he]
      omega

/-- C8 witness: the invariant instantiated on concrete handles, a fresh
size-7 handle, and `file0` after a 3-byte read and a seek to 6. -/
theorem exFatFile_position_le_size_witness :
    file0.position ≤ file0.size ∧
    ((ExFatFile.new "B" 0 2 7 0).position ≤ (ExFatFile.new "B" 0 2 7 0).size ∧
     (file0.read (List.replicate 3 0)).1.position ≤
       (file0.read (List.replicate 3 0)).1.size ∧
     (file0.seek 6).1.position ≤ (file0.seek 6).1.size) :=
  ⟨by decide,
   exFatFile_position_le_size "B" 0 2 7 0 file0 (List.replicate 3 0) 6
     (by decide)⟩

/-- C9: `read_cluster` fails with BUFFER_TOO_SMALL exactly when the buffer is
shorter than `bytes_per_cluster`, succeeds otherwise, and its result does
not depend on the cluster argument. -/
theorem read_cluster_spec (v : ExFatVolume) (c1 c2 : Nat)
    (buffer : List Nat) :
    (v.read_cluster c1 buffer = .error .BUFFER_TOO_SMALL ↔
      buffer.length < v.bytes_per_cluster) ∧
    (v.read_cluster c1 buffer = .ok () ↔
      v.bytes_per_cluster ≤ buffer.length) ∧
    v.read_cluster c1 buffer = v.read_cluster c2 buffer := by
  unfold ExFatVolume.read_cluster
  by_cases h : buffer.length < v.bytes_per_cluster
  · simp [h]
  · simp [h]
    omega

/-- C9 witness: on `vol0` (4096-byte clusters), an empty buffer fails with
BUFFER_TOO_SMALL for clusters 2 and 3 alike. -/
theorem read_cluster_spec_witness :
    (vol0.read_cluster 2 [] = .error .BUFFER_TOO_SMALL ↔
      ([] : List Nat).length < vol0.bytes_per_cluster) ∧
    (vol0.read_cluster 2 [] = .ok () ↔
      vol0.bytes_per_cluster ≤ ([] : List Nat).length) ∧
    vol0.read_cluster 2 [] = vol0.read_cluster 3 [] :=
  read_cluster_spec vol0 2 3 []

end UefiExfat
